import Mathlib

/-!
Shallow embedding of `DigiPathAI/loaders/dataloader.py`
(`WSIStridedPatchDataset`): the strided patch coordinate index built by
`_preprocess`, the `__len__` query, and the `__getitem__` patch pipeline
(crop, flip/rotate, float conversion, normalization).

Rasters are modelled as `Img α`: explicit dimensions plus a pixel function,
mirroring a numpy 2-D array (row index first, as in the code where
`X_mask, Y_mask = self._mask.shape` and `x` indexes rows).
-/

namespace DigiPathAI

/-- A 2-D raster with `rows × cols` pixels of type `α` (numpy array shape
`(rows, cols)`); `px i j` is the value at row `i`, column `j`. -/
structure Img (α : Type) where
  rows : Nat
  cols : Nat
  px : Nat → Nat → α

/-- Single-channel raster of unsigned integer values (numpy `uint8` mask). -/
abbrev Gray := Img Nat

/-- An RGB pixel: three unsigned 8-bit channel values. -/
abbrev RGB := Nat × Nat × Nat

/-- An RGB pixel after conversion to floating point, modelled exactly with
rationals (all values arising here are exactly representable). -/
abbrev RGBQ := ℚ × ℚ × ℚ

/-- `np.zeros_like(m)`: an all-zero raster of the same shape as `m`. -/
def zerosLike (m : Gray) : Gray :=
  ⟨m.rows, m.cols, fun _ _ => 0⟩

/-- The slice assignment `a[::factor, ::factor] = 1` (positive `factor`):
positions whose row and column indices are both multiples of `factor`
become 1, all other positions keep their value from `a`. -/
def sliceAssignOne (factor : Nat) (a : Gray) : Gray :=
  ⟨a.rows, a.cols, fun i j =>
    if i % factor == 0 && j % factor == 0 then 1 else a.px i j⟩

/-- Elementwise product of two rasters (numpy `*` on same-shape arrays). -/
def imgMul (a b : Gray) : Gray :=
  ⟨a.rows, a.cols, fun i j => a.px i j * b.px i j⟩

/-- `ones_mask` from `_preprocess`: `np.zeros_like(mask)` followed by
`ones_mask[::factor, ::factor] = 1` — the stride lattice. -/
def onesMask (factor : Nat) (mask : Gray) : Gray :=
  sliceAssignOne factor (zerosLike mask)

/-- The immutable state of a `WSIStridedPatchDataset` after the external
decode/cleanup collaborators have run: `slide` is the decoded RGB raster,
`labelSlide` the decoded label raster (when `label_path` was given), and
`mask` the tissue mask after `BinMorphoProcessMask` (the cleaned Tissue
Mask); the remaining fields are the construction parameters. -/
structure Dataset where
  slide : Img RGB
  labelSlide : Option Gray
  mask : Gray
  imageSize : Nat
  normalize : Bool
  flip : String
  rotate : String
  samplingStride : Nat
  roiMasking : Bool

/-- `self._strided_mask` as computed in `_preprocess`:
`ones_mask * mask` when `roi_masking` is set, else `ones_mask` alone. -/
def stridedMaskImg (ds : Dataset) : Gray :=
  let ones := onesMask ds.samplingStride ds.mask
  if ds.roiMasking then imgMul ones ds.mask else ones

/-- `np.where(m)` on a 2-D array: the positions of nonzero entries in
row-major scan order. -/
def npWhere (m : Gray) : List (Nat × Nat) :=
  (List.range m.rows).flatMap fun i =>
    (List.range m.cols).filterMap fun j =>
      if m.px i j ≠ 0 then some (i, j) else none

/-- The boundary-fit test of `_preprocess` (cases 1–4): the patch of side
`imageSize` centered at `(x, y)` lies strictly inside the mask raster.
Python integers are signed, so the subtraction is over `ℤ`. -/
def boundaryFit (imageSize Xmask Ymask x y : Nat) : Bool :=
  decide (0 < (x : Int) - (imageSize / 2 : Nat)) &&
  decide ((x : Int) + (imageSize / 2 : Nat) < (Xmask : Int)) &&
  decide (0 < (y : Int) - (imageSize / 2 : Nat)) &&
  decide ((y : Int) + (imageSize / 2 : Nat) < (Ymask : Int))

/-- The Coordinate Index built by `_preprocess`: the nonzero positions of
the Strided Mask in scan order, filtered by the boundary-fit test (the
zipped view of `self._X_idcs, self._Y_idcs`). -/
def coordIndex (ds : Dataset) : List (Nat × Nat) :=
  (npWhere (stridedMaskImg ds)).filter fun p =>
    boundaryFit ds.imageSize ds.mask.rows ds.mask.cols p.1 p.2

/-- `self._idcs_num`, the value returned by `__len__`. -/
def idcsNum (ds : Dataset) : Nat :=
  (coordIndex ds).length

/-! ## The `__getitem__` pipeline -/

/-- Modelled from the spec: `getImagePatch(image, center, size)` (from
`DigiPathAI.helpers.utils`, whose source is not available here) crops a
square patch of side `size` centered at the given coordinates, with the
half-size taken by integer floor division on both sides. -/
def getImagePatch (im : Img α) (center : Nat × Nat) (size : Nat) : Img α :=
  ⟨size, size, fun i j =>
    im.px (center.1 - size / 2 + i) (center.2 - size / 2 + j)⟩

/-- `Image.fromarray(np.zeros((size, size), dtype=np.uint8))`: the all-zero
single-channel square synthesized when no label raster exists. -/
def zeroLabel (size : Nat) : Gray :=
  ⟨size, size, fun _ _ => 0⟩

/-- The label patch of `__getitem__`: cropped from the label raster when one
was supplied, else the synthesized all-zero square. -/
def labelPatch (ds : Dataset) (x y : Nat) : Gray :=
  match ds.labelSlide with
  | some l => getImagePatch l (x, y) ds.imageSize
  | none => zeroLabel ds.imageSize

/-- PIL `Image.FLIP_LEFT_RIGHT`: mirror each row horizontally. -/
def flipLR (m : Img α) : Img α :=
  ⟨m.rows, m.cols, fun i j => m.px i (m.cols - 1 - j)⟩

/-- PIL `Image.ROTATE_90` (90° counter-clockwise): the result has shape
`cols × rows` and `result[i][j] = m[j][cols - 1 - i]`. -/
def rot90 (m : Img α) : Img α :=
  ⟨m.cols, m.rows, fun i j => m.px j (m.cols - 1 - i)⟩

/-- PIL `Image.ROTATE_180`. -/
def rot180 (m : Img α) : Img α :=
  ⟨m.rows, m.cols, fun i j => m.px (m.rows - 1 - i) (m.cols - 1 - j)⟩

/-- PIL `Image.ROTATE_270` (270° counter-clockwise): the result has shape
`cols × rows` and `result[i][j] = m[rows - 1 - j][i]`. -/
def rot270 (m : Img α) : Img α :=
  ⟨m.cols, m.rows, fun i j => m.px (m.rows - 1 - j) i⟩

/-- The geometric-transform block of `__getitem__`, verbatim: an `if` on the
flip mode followed by three successive `if`s on the rotate mode, each
applied to the result of the previous one. -/
def transformImg (flip rotate : String) (m : Img α) : Img α :=
  let m1 := if flip == "FLIP_LEFT_RIGHT" then flipLR m else m
  let m2 := if rotate == "ROTATE_90" then rot90 m1 else m1
  let m3 := if rotate == "ROTATE_180" then rot180 m2 else m2
  let m4 := if rotate == "ROTATE_270" then rot270 m3 else m3
  m4

/-- Flip as a single-case function of the flip mode. -/
def applyFlip (flip : String) (m : Img α) : Img α :=
  if flip == "FLIP_LEFT_RIGHT" then flipLR m else m

/-- Rotation as a single-case function of the rotate mode: exactly one of
the three rotations (or none) applies. -/
def applyRotate (rotate : String) (m : Img α) : Img α :=
  if rotate == "ROTATE_90" then rot90 m
  else if rotate == "ROTATE_180" then rot180 m
  else if rotate == "ROTATE_270" then rot270 m
  else m

/-- `np.array(img, dtype=np.float32)`: convert each channel value to
floating point (exact here, since raw channel values are small integers). -/
def toFloatImg (m : Img RGB) : Img RGBQ :=
  ⟨m.rows, m.cols, fun i j =>
    (((m.px i j).1 : ℚ), ((m.px i j).2.1 : ℚ), ((m.px i j).2.2 : ℚ))⟩

/-- The normalization map `v ↦ (v - 128.0) / 128.0` applied to one channel
value. -/
def normPix (v : ℚ) : ℚ :=
  (v - 128) / 128

/-- `img = (img - 128.0) / 128.0`: numpy broadcasting applies `normPix` to
every channel of every pixel. -/
def normalizeImg (m : Img RGBQ) : Img RGBQ :=
  ⟨m.rows, m.cols, fun i j =>
    (normPix (m.px i j).1, normPix (m.px i j).2.1, normPix (m.px i j).2.2)⟩

/-- Numpy 1-D integer indexing `a[idx]` on an array of length `n`: a
non-negative index must be `< n`; a negative index wraps to `n + idx` and
must land at a non-negative position; anything else raises `IndexError`
(modelled as `none`). -/
def npGetIdx (n : Nat) (idx : Int) : Option Nat :=
  if 0 ≤ idx then
    if idx < (n : Int) then some idx.toNat else none
  else
    if 0 ≤ (n : Int) + idx then some ((n : Int) + idx).toNat else none

/-- `__getitem__(idx)`: resolve `idx` against `_X_idcs`/`_Y_idcs` (numpy
indexing, so an unresolvable index is an `IndexError`, modelled `none`),
crop the image and label patches, apply flip then rotations to both,
convert the image to float and optionally normalize, and return
`(img, x_coord, y_coord, label_img)`. -/
def getItem (ds : Dataset) (idx : Int) :
    Option (Img RGBQ × Nat × Nat × Gray) :=
  match npGetIdx (idcsNum ds) idx with
  | none => none
  | some k =>
    match (coordIndex ds).get? k with
    | none => none
    | some (x, y) =>
      let img := getImagePatch ds.slide (x, y) ds.imageSize
      let lab := labelPatch ds x y
      let img2 := transformImg ds.flip ds.rotate img
      let lab2 := transformImg ds.flip ds.rotate lab
      let imgF := toFloatImg img2
      let imgN := if ds.normalize then normalizeImg imgF else imgF
      some (imgN, x, y, lab2)

/-! ## Construction with an arbitrary (signed) stride

`__init__` stores its arguments unchecked and calls `_preprocess`; the only
construction-time failure for a bad stride comes from numpy itself, which
rejects a slice step of zero (`ValueError: slice step cannot be zero`) in
`ones_mask[::factor, ::factor] = 1`.  A negative step is legal numpy
slicing (it walks the axis backwards from the last element), and no shape
comparison between the slide, mask and label rasters appears anywhere in
`__init__`/`_preprocess`.  This model keeps the stride as a signed integer
to capture that behaviour. -/

/-- Membership of index `i` in the numpy slice `a[::step]` along an axis of
length `n`, for `step ≠ 0`: a positive step selects the multiples of
`step`; a negative step starts at `n - 1` and walks backwards in jumps of
`|step|`. -/
def sliceSet (n : Nat) (step : Int) (i : Nat) : Bool :=
  if 0 < step then i % step.toNat == 0
  else (n - 1 - i) % step.natAbs == 0

/-- The one error numpy raises during `_preprocess` for a bad stride. -/
inductive ConstructError
  | sliceStepZero

/-- `__init__` followed by `_preprocess`, with the sampling stride kept
signed: a zero stride is rejected by numpy's slicing; any nonzero stride
(negative included) completes construction and yields the Coordinate
Index.  The slide raster is received (its shape is read into unused
locals in `_preprocess`) but never compared against the mask's shape. -/
def preprocessChecked (slide : Img RGB) (imageSize : Nat) (stride : Int)
    (roi : Bool) (mask : Gray) : Except ConstructError (List (Nat × Nat)) :=
  if stride = 0 then .error .sliceStepZero
  else
    let Xslide := slide.rows
    let Yslide := slide.cols
    let ones : Gray := ⟨mask.rows, mask.cols, fun i j =>
      if sliceSet mask.rows stride i && sliceSet mask.cols stride j then 1
      else (zerosLike mask).px i j⟩
    let strided := if roi then imgMul ones mask else ones
    let _ := (Xslide, Yslide)
    .ok ((npWhere strided).filter fun p =>
      boundaryFit imageSize mask.rows mask.cols p.1 p.2)

/-! ## Concrete fixtures -/

/-- An 8×8 all-ones (all-tissue) cleaned mask. -/
def maskOnes8 : Gray := ⟨8, 8, fun _ _ => 1⟩

/-- An 8×8 all-zero cleaned mask (no tissue anywhere). -/
def maskZero8 : Gray := ⟨8, 8, fun _ _ => 0⟩

/-- An 8×8 RGB slide raster with distinct channel values per pixel. -/
def slide8 : Img RGB := ⟨8, 8, fun i j => (i + j, 2 * i, 128)⟩

/-- Dataset: all-tissue 8×8 mask, patch side 2, stride 1, ROI masking on,
no label raster, normalization on, no flip/rotation. -/
def dsA : Dataset :=
  ⟨slide8, none, maskOnes8, 2, true, "NONE", "NONE", 1, true⟩

/-- Dataset: like `dsA` but stride 2, horizontal flip and 90° rotation. -/
def dsB : Dataset :=
  ⟨slide8, none, maskOnes8, 2, true, "FLIP_LEFT_RIGHT", "ROTATE_90", 2, true⟩

/-- Dataset: all-zero mask with ROI masking on. -/
def dsC : Dataset :=
  ⟨slide8, none, maskZero8, 2, true, "NONE", "NONE", 1, true⟩

/-- A 10×10 all-ones mask, shape-mismatched against `slide8`. -/
def maskOnes10 : Gray := ⟨10, 10, fun _ _ => 1⟩

/-- `Tracks a a0 b b0`: the transformed rasters `a` and `b` have the same
shape and each output pixel `(i, j)` of `a` and of `b` was read from the
same source location `(p, q)` of `a0` and `b0` respectively — the formal
content of "pixel-aligned under identical geometric transforms". -/
def Tracks {α β : Type} (a a0 : Img α) (b b0 : Img β) : Prop :=
  a.rows = b.rows ∧ a.cols = b.cols ∧
    ∀ i j, ∃ p q, a.px i j = a0.px p q ∧ b.px i j = b0.px p q

/-! ## Basic lemmas about the preprocessing step -/

lemma mem_npWhere {m : Gray} {x y : Nat} :
    (x, y) ∈ npWhere m ↔ x < m.rows ∧ y < m.cols ∧ m.px x y ≠ 0 := by
  simp only [npWhere, List.mem_flatMap, List.mem_filterMap, List.mem_range]
  constructor
  · rintro ⟨i, hi, j, hj, hij⟩
    split at hij
    · obtain ⟨rfl, rfl⟩ := Prod.mk.injEq .. ▸ Option.some.inj hij
      exact ⟨hi, hj, by assumption⟩
    · exact absurd hij (Option.noConfusion)
  · rintro ⟨hx, hy, hpx⟩
    exact ⟨x, hx, y, hy, by simp [hpx]⟩

lemma stridedMaskImg_rows (ds : Dataset) :
    (stridedMaskImg ds).rows = ds.mask.rows := by
  unfold stridedMaskImg imgMul onesMask sliceAssignOne zerosLike
  cases ds.roiMasking <;> simp

lemma stridedMaskImg_cols (ds : Dataset) :
    (stridedMaskImg ds).cols = ds.mask.cols := by
  unfold stridedMaskImg imgMul onesMask sliceAssignOne zerosLike
  cases ds.roiMasking <;> simp

lemma stridedMaskImg_px_ne_zero (ds : Dataset) (i j : Nat) :
    (stridedMaskImg ds).px i j ≠ 0 ↔
      i % ds.samplingStride = 0 ∧ j % ds.samplingStride = 0 ∧
        (ds.roiMasking = true → ds.mask.px i j ≠ 0) := by
  unfold stridedMaskImg imgMul onesMask sliceAssignOne zerosLike
  cases hroi : ds.roiMasking
  · simp only [if_neg Bool.false_ne_true, Bool.false_eq_true]
    by_cases hl : i % ds.samplingStride = 0 ∧ j % ds.samplingStride = 0
    · simp [hl.1, hl.2]
    · rcases Decidable.not_and_iff_or_not.mp hl with h | h <;> simp [h]
  · simp only [if_pos rfl]
    by_cases hl : i % ds.samplingStride = 0 ∧ j % ds.samplingStride = 0
    · simp [hl.1, hl.2]
    · rcases Decidable.not_and_iff_or_not.mp hl with h | h <;> simp [h]

lemma mem_coordIndex {ds : Dataset} {x y : Nat} :
    (x, y) ∈ coordIndex ds ↔
      x < ds.mask.rows ∧ y < ds.mask.cols ∧
      (stridedMaskImg ds).px x y ≠ 0 ∧
      boundaryFit ds.imageSize ds.mask.rows ds.mask.cols x y = true := by
  unfold coordIndex
  rw [List.mem_filter, mem_npWhere, stridedMaskImg_rows, stridedMaskImg_cols]
  tauto

/-! ## Claims about the Coordinate Index -/

/-- Claim C1: for every constructed index, every entry `(x, y)` of the
Coordinate Index satisfies the boundary-fit inequalities against the
mask's shape: `x - image_size//2 > 0`, `x + image_size//2 < X_mask`,
`y - image_size//2 > 0`, `y + image_size//2 < Y_mask`, with strict
inequalities and integer floor division for the half-size. -/
theorem coordIndex_boundary (ds : Dataset) (x y : Nat)
    (h : (x, y) ∈ coordIndex ds) :
    0 < (x : Int) - (ds.imageSize / 2 : Nat) ∧
    (x : Int) + (ds.imageSize / 2 : Nat) < (ds.mask.rows : Int) ∧
    0 < (y : Int) - (ds.imageSize / 2 : Nat) ∧
    (y : Int) + (ds.imageSize / 2 : Nat) < (ds.mask.cols : Int) := by
  have h2 := (mem_coordIndex.mp h).2.2.2
  simp only [boundaryFit, Bool.and_eq_true, decide_eq_true_eq] at h2
  tauto

theorem coordIndex_boundary_witness :
    0 < ((2 : Nat) : Int) - (dsA.imageSize / 2 : Nat) ∧
    ((2 : Nat) : Int) + (dsA.imageSize / 2 : Nat) < (dsA.mask.rows : Int) ∧
    0 < ((2 : Nat) : Int) - (dsA.imageSize / 2 : Nat) ∧
    ((2 : Nat) : Int) + (dsA.imageSize / 2 : Nat) < (dsA.mask.cols : Int) :=
  coordIndex_boundary dsA 2 2 (by decide)

lemma filterMap_ite_some {α β : Type} (l : List α) (p : α → Prop)
    [DecidablePred p] (f : α → β) :
    (l.filterMap fun a => if p a then some (f a) else none) =
      (l.filter fun a => decide (p a)).map f := by
  induction l with
  | nil => rfl
  | cons a t ih =>
    by_cases h : p a <;>
      simp [List.filterMap_cons, List.filter_cons, h, ih]

/-- Claim C2: `__len__` returns exactly the number of positions where the
Strided Mask is nonzero that pass the boundary-fit filter; in particular
for an all-true tissue mask with stride 1 and ROI masking enabled, a
position `(x, y)` is selected exactly when it satisfies the strict
boundary inequalities (so every interior pixel not within
`image_size//2` of any edge, excluding row 0 and column 0, is selected). -/
theorem len_counts (ds : Dataset) :
    idcsNum ds =
      (((List.range ds.mask.rows).flatMap fun i =>
          (List.range ds.mask.cols).map fun j => (i, j)).filter fun p =>
        boundaryFit ds.imageSize ds.mask.rows ds.mask.cols p.1 p.2 &&
          decide ((stridedMaskImg ds).px p.1 p.2 ≠ 0)).length ∧
    ((∀ i j, i < ds.mask.rows → j < ds.mask.cols → ds.mask.px i j ≠ 0) →
      ds.samplingStride = 1 → ds.roiMasking = true →
      ∀ x y, (x, y) ∈ coordIndex ds ↔
        (0 < (x : Int) - (ds.imageSize / 2 : Nat) ∧
         (x : Int) + (ds.imageSize / 2 : Nat) < (ds.mask.rows : Int) ∧
         0 < (y : Int) - (ds.imageSize / 2 : Nat) ∧
         (y : Int) + (ds.imageSize / 2 : Nat) < (ds.mask.cols : Int))) := by
  constructor
  · unfold idcsNum coordIndex npWhere
    rw [stridedMaskImg_rows, stridedMaskImg_cols,
      List.filter_flatMap, List.filter_flatMap]
    refine congrArg List.length
      (congrArg (List.flatMap (List.range ds.mask.rows)) (funext fun i => ?_))
    rw [filterMap_ite_some, List.filter_map, List.filter_map,
      List.filter_filter]
    rfl
  · intro hmask hstride hroi x y
    rw [mem_coordIndex]
    constructor
    · rintro ⟨hx, hy, hpx, hb⟩
      simp only [boundaryFit, Bool.and_eq_true, decide_eq_true_eq] at hb
      tauto
    · intro hb
      obtain ⟨h1, h2, h3, h4⟩ := hb
      have hhalf : (0 : Int) ≤ (ds.imageSize / 2 : Nat) := Int.ofNat_nonneg _
      have hx : x < ds.mask.rows := by omega
      have hy : y < ds.mask.cols := by omega
      refine ⟨hx, hy, ?_, ?_⟩
      · rw [stridedMaskImg_px_ne_zero, hstride]
        exact ⟨Nat.mod_one x, Nat.mod_one y, fun _ => hmask x y hx hy⟩
      · simp only [boundaryFit, Bool.and_eq_true, decide_eq_true_eq]
        tauto

theorem len_counts_witness :
    idcsNum dsA =
      (((List.range dsA.mask.rows).flatMap fun i =>
          (List.range dsA.mask.cols).map fun j => (i, j)).filter fun p =>
        boundaryFit dsA.imageSize dsA.mask.rows dsA.mask.cols p.1 p.2 &&
          decide ((stridedMaskImg dsA).px p.1 p.2 ≠ 0)).length ∧
    ((2, 3) ∈ coordIndex dsA ↔
      (0 < ((2 : Nat) : Int) - (dsA.imageSize / 2 : Nat) ∧
       ((2 : Nat) : Int) + (dsA.imageSize / 2 : Nat) < (dsA.mask.rows : Int) ∧
       0 < ((3 : Nat) : Int) - (dsA.imageSize / 2 : Nat) ∧
       ((3 : Nat) : Int) + (dsA.imageSize / 2 : Nat) < (dsA.mask.cols : Int))) :=
  ⟨(len_counts dsA).1,
   (len_counts dsA).2 (fun _ _ _ _ => Nat.one_ne_zero) rfl rfl 2 3⟩

/-- Claim C3: the Strided Mask is the elementwise product (AND) of the
stride-lattice mask (true exactly where both indices are multiples of
`sampling_stride`) with the cleaned Tissue Mask when `roi_masking` is
true; when `roi_masking` is false it is the lattice alone, regardless of
tissue content, even for an all-zero tissue mask. -/
theorem stridedMask_spec (ds : Dataset) :
    (∀ i j, (stridedMaskImg ds).px i j ≠ 0 ↔
      (i % ds.samplingStride = 0 ∧ j % ds.samplingStride = 0 ∧
        (ds.roiMasking = true → ds.mask.px i j ≠ 0))) ∧
    (ds.roiMasking = true →
      stridedMaskImg ds = imgMul (onesMask ds.samplingStride ds.mask) ds.mask) ∧
    (ds.roiMasking = false →
      stridedMaskImg ds = onesMask ds.samplingStride ds.mask) ∧
    (ds.roiMasking = false → ∀ m2 : Gray, ∀ i j,
      (stridedMaskImg { ds with mask := m2 }).px i j =
        (stridedMaskImg { ds with mask := ds.mask }).px i j) := by
  refine ⟨stridedMaskImg_px_ne_zero ds, fun hroi => ?_, fun hroi => ?_, fun hroi m2 i j => ?_⟩
  · unfold stridedMaskImg
    rw [hroi, if_pos rfl]
  · unfold stridedMaskImg
    rw [hroi, if_neg Bool.false_ne_true]
  · unfold stridedMaskImg onesMask sliceAssignOne zerosLike
    simp only [hroi, Bool.false_eq_true, if_neg, if_false]

theorem stridedMask_spec_witness :
    ((stridedMaskImg dsC).px 2 2 ≠ 0 ↔
      (2 % dsC.samplingStride = 0 ∧ 2 % dsC.samplingStride = 0 ∧
        (dsC.roiMasking = true → dsC.mask.px 2 2 ≠ 0))) ∧
    stridedMaskImg dsC = imgMul (onesMask dsC.samplingStride dsC.mask) dsC.mask :=
  ⟨(stridedMask_spec dsC).1 2 2, (stridedMask_spec dsC).2.1 rfl⟩

/-- Claim C6: when `roi_masking` is true and the cleaned tissue mask is
all-zero, the constructed Coordinate Index is empty: `__len__` returns 0. -/
theorem len_zero_of_zero_mask (ds : Dataset) (hroi : ds.roiMasking = true)
    (hmask : ∀ i j, i < ds.mask.rows → j < ds.mask.cols → ds.mask.px i j = 0) :
    idcsNum ds = 0 := by
  unfold idcsNum
  rw [List.length_eq_zero, List.eq_nil_iff_forall_not_mem]
  rintro ⟨x, y⟩ hmem
  obtain ⟨hx, hy, hpx, -⟩ := mem_coordIndex.mp hmem
  exact ((stridedMaskImg_px_ne_zero ds x y).mp hpx).2.2 hroi (hmask x y hx hy)

theorem len_zero_of_zero_mask_witness : idcsNum dsC = 0 :=
  len_zero_of_zero_mask dsC rfl (fun _ _ _ _ => rfl)

/-- Claim C10: for every constructed index (any `roi_masking` setting),
every entry `(x, y)` of the Coordinate Index has both `x` and `y`
divisible by `sampling_stride`, because candidates are drawn only from
the stride lattice; consequently `x ≥ sampling_stride` and
`y ≥ sampling_stride` once the strict lower boundary test is passed. -/
theorem coordIndex_stride_dvd (ds : Dataset)
    (x y : Nat) (h : (x, y) ∈ coordIndex ds) :
    x % ds.samplingStride = 0 ∧ y % ds.samplingStride = 0 ∧
    ds.samplingStride ≤ x ∧ ds.samplingStride ≤ y := by
  obtain ⟨hx, hy, hpx, hb⟩ := mem_coordIndex.mp h
  obtain ⟨hmx, hmy, -⟩ := (stridedMaskImg_px_ne_zero ds x y).mp hpx
  simp only [boundaryFit, Bool.and_eq_true, decide_eq_true_eq] at hb
  have hxpos : 0 < x := by
    have := hb.1.1.1
    omega
  have hypos : 0 < y := by
    have := hb.1.2
    omega
  exact ⟨hmx, hmy,
    Nat.le_of_dvd hxpos (Nat.dvd_of_mod_eq_zero hmx),
    Nat.le_of_dvd hypos (Nat.dvd_of_mod_eq_zero hmy)⟩

theorem coordIndex_stride_dvd_witness :
    2 % dsB.samplingStride = 0 ∧ 2 % dsB.samplingStride = 0 ∧
    dsB.samplingStride ≤ 2 ∧ dsB.samplingStride ≤ 2 :=
  coordIndex_stride_dvd dsB 2 2 (by decide)

/-! ## Claims about `__getitem__` -/

lemma getItem_valid_eq (ds : Dataset) (idx : Int) (h0 : 0 ≤ idx)
    (h1 : idx < (idcsNum ds : Int)) :
    ∃ x y, (coordIndex ds).get? idx.toNat = some (x, y) ∧
      getItem ds idx = some
        ((if ds.normalize
          then normalizeImg (toFloatImg (transformImg ds.flip ds.rotate
            (getImagePatch ds.slide (x, y) ds.imageSize)))
          else toFloatImg (transformImg ds.flip ds.rotate
            (getImagePatch ds.slide (x, y) ds.imageSize))),
         x, y, transformImg ds.flip ds.rotate (labelPatch ds x y)) := by
  have hlt : idx.toNat < (coordIndex ds).length := by
    unfold idcsNum at h1
    omega
  obtain ⟨⟨x, y⟩, hget⟩ : ∃ p, (coordIndex ds).get? idx.toNat = some p :=
    ⟨_, List.get?_eq_get hlt⟩
  have hnp : npGetIdx (idcsNum ds) idx = some idx.toNat := by
    unfold npGetIdx
    rw [if_pos h0, if_pos h1]
  refine ⟨x, y, hget, ?_⟩
  simp only [getItem, hnp, hget]

lemma transform_zero (f r : String) (s : Nat) :
    (transformImg f r (zeroLabel s)).rows = s ∧
    (transformImg f r (zeroLabel s)).cols = s ∧
    ∀ i j, (transformImg f r (zeroLabel s)).px i j = 0 := by
  simp only [transformImg]
  split_ifs <;> simp [flipLR, rot90, rot180, rot270, zeroLabel]

/-- Claim C7: when no label path is supplied, indexed access at every valid
index returns a label patch that is an all-zero single-channel square of
side `image_size`, for every flip/rotate configuration. -/
theorem label_all_zero (ds : Dataset) (hl : ds.labelSlide = none)
    (idx : Int) (h0 : 0 ≤ idx) (h1 : idx < (idcsNum ds : Int)) :
    ∃ img x y lab, getItem ds idx = some (img, x, y, lab) ∧
      lab.rows = ds.imageSize ∧ lab.cols = ds.imageSize ∧
      ∀ i j, lab.px i j = 0 := by
  obtain ⟨x, y, hget, heq⟩ := getItem_valid_eq ds idx h0 h1
  refine ⟨_, x, y, _, heq, ?_⟩
  have hlab : labelPatch ds x y = zeroLabel ds.imageSize := by
    unfold labelPatch
    rw [hl]
  rw [hlab]
  exact transform_zero ds.flip ds.rotate ds.imageSize

theorem label_all_zero_witness :
    ∃ img x y lab, getItem dsB 0 = some (img, x, y, lab) ∧
      lab.rows = dsB.imageSize ∧ lab.cols = dsB.imageSize ∧
      ∀ i j, lab.px i j = 0 :=
  label_all_zero dsB rfl 0 (by decide) (by decide)

lemma tracks_refl {α β : Type} {a : Img α} {b : Img β}
    (hr : a.rows = b.rows) (hc : a.cols = b.cols) : Tracks a a b b :=
  ⟨hr, hc, fun i j => ⟨i, j, rfl, rfl⟩⟩

lemma tracks_flipLR {α β : Type} {a a0 : Img α} {b b0 : Img β}
    (h : Tracks a a0 b b0) : Tracks (flipLR a) a0 (flipLR b) b0 := by
  obtain ⟨hr, hc, hm⟩ := h
  refine ⟨hr, hc, fun i j => ?_⟩
  obtain ⟨p, q, e1, e2⟩ := hm i (a.cols - 1 - j)
  refine ⟨p, q, e1, ?_⟩
  show b.px i (b.cols - 1 - j) = b0.px p q
  rw [← hc]
  exact e2

lemma tracks_rot90 {α β : Type} {a a0 : Img α} {b b0 : Img β}
    (h : Tracks a a0 b b0) : Tracks (rot90 a) a0 (rot90 b) b0 := by
  obtain ⟨hr, hc, hm⟩ := h
  refine ⟨hc, hr, fun i j => ?_⟩
  obtain ⟨p, q, e1, e2⟩ := hm j (a.cols - 1 - i)
  refine ⟨p, q, e1, ?_⟩
  show b.px j (b.cols - 1 - i) = b0.px p q
  rw [← hc]
  exact e2

lemma tracks_rot180 {α β : Type} {a a0 : Img α} {b b0 : Img β}
    (h : Tracks a a0 b b0) : Tracks (rot180 a) a0 (rot180 b) b0 := by
  obtain ⟨hr, hc, hm⟩ := h
  refine ⟨hr, hc, fun i j => ?_⟩
  obtain ⟨p, q, e1, e2⟩ := hm (a.rows - 1 - i) (a.cols - 1 - j)
  refine ⟨p, q, e1, ?_⟩
  show b.px (b.rows - 1 - i) (b.cols - 1 - j) = b0.px p q
  rw [← hc, ← hr]
  exact e2

lemma tracks_rot270 {α β : Type} {a a0 : Img α} {b b0 : Img β}
    (h : Tracks a a0 b b0) : Tracks (rot270 a) a0 (rot270 b) b0 := by
  obtain ⟨hr, hc, hm⟩ := h
  refine ⟨hc, hr, fun i j => ?_⟩
  obtain ⟨p, q, e1, e2⟩ := hm (a.rows - 1 - j) i
  refine ⟨p, q, e1, ?_⟩
  show b.px (b.rows - 1 - j) i = b0.px p q
  rw [← hr]
  exact e2

lemma tracks_transformImg {α β : Type} {a a0 : Img α} {b b0 : Img β}
    (f r : String) (h : Tracks a a0 b b0) :
    Tracks (transformImg f r a) a0 (transformImg f r b) b0 := by
  simp only [transformImg]
  split_ifs <;>
    solve_by_elim [tracks_flipLR, tracks_rot90, tracks_rot180, tracks_rot270]

lemma transformImg_eq_applyRotate {α : Type} (f r : String)
    (hr : r = "NONE" ∨ r = "ROTATE_90" ∨ r = "ROTATE_180" ∨ r = "ROTATE_270")
    (m : Img α) : transformImg f r m = applyRotate r (applyFlip f m) := by
  rcases hr with rfl | rfl | rfl | rfl <;> rfl

lemma labelPatch_rows (ds : Dataset) (x y : Nat) :
    (labelPatch ds x y).rows = ds.imageSize := by
  unfold labelPatch
  cases ds.labelSlide <;> rfl

lemma labelPatch_cols (ds : Dataset) (x y : Nat) :
    (labelPatch ds x y).cols = ds.imageSize := by
  unfold labelPatch
  cases ds.labelSlide <;> rfl

/-- Claim C8: for every valid index, the `FLIP_LEFT_RIGHT` flip is applied
before the rotation, exactly one rotation case applies per configured
rotate mode, and the image and label patches undergo the identical
sequence of geometric transforms, so they remain pixel-aligned. -/
theorem flip_before_rotate_aligned (ds : Dataset) (idx : Int)
    (h0 : 0 ≤ idx) (h1 : idx < (idcsNum ds : Int))
    (hr : ds.rotate = "NONE" ∨ ds.rotate = "ROTATE_90" ∨
      ds.rotate = "ROTATE_180" ∨ ds.rotate = "ROTATE_270") :
    ∃ x y,
      getItem ds idx = some
        ((if ds.normalize
          then normalizeImg (toFloatImg (transformImg ds.flip ds.rotate
            (getImagePatch ds.slide (x, y) ds.imageSize)))
          else toFloatImg (transformImg ds.flip ds.rotate
            (getImagePatch ds.slide (x, y) ds.imageSize))),
         x, y, transformImg ds.flip ds.rotate (labelPatch ds x y)) ∧
      (∀ (γ : Type) (m : Img γ),
        transformImg ds.flip ds.rotate m =
          applyRotate ds.rotate (applyFlip ds.flip m)) ∧
      Tracks
        (transformImg ds.flip ds.rotate
          (getImagePatch ds.slide (x, y) ds.imageSize))
        (getImagePatch ds.slide (x, y) ds.imageSize)
        (transformImg ds.flip ds.rotate (labelPatch ds x y))
        (labelPatch ds x y) := by
  obtain ⟨x, y, hget, heq⟩ := getItem_valid_eq ds idx h0 h1
  refine ⟨x, y, heq,
    fun γ m => transformImg_eq_applyRotate ds.flip ds.rotate hr m, ?_⟩
  exact tracks_transformImg ds.flip ds.rotate
    (tracks_refl (labelPatch_rows ds x y).symm (labelPatch_cols ds x y).symm)

theorem flip_before_rotate_aligned_witness :
    ∃ x y,
      getItem dsB 0 = some
        ((if dsB.normalize
          then normalizeImg (toFloatImg (transformImg dsB.flip dsB.rotate
            (getImagePatch dsB.slide (x, y) dsB.imageSize)))
          else toFloatImg (transformImg dsB.flip dsB.rotate
            (getImagePatch dsB.slide (x, y) dsB.imageSize))),
         x, y, transformImg dsB.flip dsB.rotate (labelPatch dsB x y)) ∧
      (∀ (γ : Type) (m : Img γ),
        transformImg dsB.flip dsB.rotate m =
          applyRotate dsB.rotate (applyFlip dsB.flip m)) ∧
      Tracks
        (transformImg dsB.flip dsB.rotate
          (getImagePatch dsB.slide (x, y) dsB.imageSize))
        (getImagePatch dsB.slide (x, y) dsB.imageSize)
        (transformImg dsB.flip dsB.rotate (labelPatch dsB x y))
        (labelPatch dsB x y) :=
  flip_before_rotate_aligned dsB 0 (by decide) (by decide)
    (Or.inr (Or.inl rfl))

/-- Claim C9: when normalization is enabled, every channel value `v` of the
image patch is rescaled to `(v - 128.0) / 128.0` after conversion to
floating point (raw 128 ↦ 0, raw 0 ↦ -1, raw 255 ↦ 127/128); when it is
disabled the image patch keeps its raw decoded floating-point values; the
label patch is never rescaled (it is the purely geometric transform of
the cropped label data). -/
theorem normalize_values (ds : Dataset) (idx : Int) (h0 : 0 ≤ idx)
    (h1 : idx < (idcsNum ds : Int)) :
    ∃ x y img lab, getItem ds idx = some (img, x, y, lab) ∧
      lab = transformImg ds.flip ds.rotate (labelPatch ds x y) ∧
      (ds.normalize = true → ∀ i j, img.px i j =
        (normPix ((toFloatImg (transformImg ds.flip ds.rotate
            (getImagePatch ds.slide (x, y) ds.imageSize))).px i j).1,
         normPix ((toFloatImg (transformImg ds.flip ds.rotate
            (getImagePatch ds.slide (x, y) ds.imageSize))).px i j).2.1,
         normPix ((toFloatImg (transformImg ds.flip ds.rotate
            (getImagePatch ds.slide (x, y) ds.imageSize))).px i j).2.2)) ∧
      (ds.normalize = false → ∀ i j, img.px i j =
        (toFloatImg (transformImg ds.flip ds.rotate
          (getImagePatch ds.slide (x, y) ds.imageSize))).px i j) ∧
      normPix 128 = 0 ∧ normPix 0 = -1 ∧ normPix 255 = 127 / 128 := by
  obtain ⟨x, y, hget, heq⟩ := getItem_valid_eq ds idx h0 h1
  refine ⟨x, y, _, _, heq, rfl, ?_, ?_, by norm_num [normPix],
    by norm_num [normPix], by norm_num [normPix]⟩
  · intro hn i j
    simp only [hn, if_true]
    rfl
  · intro hn i j
    simp only [hn, Bool.false_eq_true, if_false]

theorem normalize_values_witness :
    ∃ x y img lab, getItem dsA 0 = some (img, x, y, lab) ∧
      lab = transformImg dsA.flip dsA.rotate (labelPatch dsA x y) ∧
      (dsA.normalize = true → ∀ i j, img.px i j =
        (normPix ((toFloatImg (transformImg dsA.flip dsA.rotate
            (getImagePatch dsA.slide (x, y) dsA.imageSize))).px i j).1,
         normPix ((toFloatImg (transformImg dsA.flip dsA.rotate
            (getImagePatch dsA.slide (x, y) dsA.imageSize))).px i j).2.1,
         normPix ((toFloatImg (transformImg dsA.flip dsA.rotate
            (getImagePatch dsA.slide (x, y) dsA.imageSize))).px i j).2.2)) ∧
      (dsA.normalize = false → ∀ i j, img.px i j =
        (toFloatImg (transformImg dsA.flip dsA.rotate
          (getImagePatch dsA.slide (x, y) dsA.imageSize))).px i j) ∧
      normPix 128 = 0 ∧ normPix 0 = -1 ∧ normPix 255 = 127 / 128 :=
  normalize_values dsA 0 (by decide) (by decide)

/-- Claim C5 (as amended): indexed access with `idx ≥ length` or
`idx < -length` raises `IndexError` (modelled `none`); any index in
`[-length, length)` — including the negative wrap-around indices numpy
accepts — returns a patch. -/
theorem getItem_index_semantics (ds : Dataset) (idx : Int) :
    ((idx < -(idcsNum ds : Int) ∨ (idcsNum ds : Int) ≤ idx) →
      getItem ds idx = none) ∧
    (-(idcsNum ds : Int) ≤ idx → idx < (idcsNum ds : Int) →
      (getItem ds idx).isSome = true) := by
  constructor
  · intro h
    unfold getItem npGetIdx
    rcases h with h | h
    · rw [if_neg (by omega : ¬ (0 : Int) ≤ idx),
        if_neg (by omega : ¬ (0 : Int) ≤ (idcsNum ds : Int) + idx)]
    · rw [if_pos (by omega : (0 : Int) ≤ idx),
        if_neg (by omega : ¬ idx < (idcsNum ds : Int))]
  · intro hlo hhi
    by_cases hpos : 0 ≤ idx
    · obtain ⟨x, y, hget, heq⟩ := getItem_valid_eq ds idx hpos hhi
      rw [heq]
      rfl
    · have h1 : 0 ≤ (idcsNum ds : Int) + idx := by omega
      have hk : ((idcsNum ds : Int) + idx).toNat < (coordIndex ds).length := by
        have : (coordIndex ds).length = idcsNum ds := rfl
        omega
      obtain ⟨⟨x, y⟩, hget⟩ :
          ∃ p, (coordIndex ds).get? ((idcsNum ds : Int) + idx).toNat = some p :=
        ⟨_, List.get?_eq_get hk⟩
      have hnp : npGetIdx (idcsNum ds) idx =
          some ((idcsNum ds : Int) + idx).toNat := by
        unfold npGetIdx
        rw [if_neg hpos, if_pos h1]
      simp only [getItem, hnp, hget, Option.isSome_some]

/-- Claim C5 counterexample: on a concrete dataset of length 25, the
negative index `-1` returns a patch instead of raising `IndexError`,
refuting the claim that any negative index is an error. -/
theorem getItem_negative_index_counterexample :
    (getItem dsA (-1)).isSome = true := by decide

theorem getItem_index_semantics_witness :
    getItem dsA 25 = none ∧ (getItem dsA (-25)).isSome = true :=
  ⟨(getItem_index_semantics dsA 25).1 (Or.inr (by decide)),
   (getItem_index_semantics dsA (-25)).2 (by decide) (by decide)⟩

/-! ## Construction-time validation (claim C4) -/

lemma preprocessChecked_pos (ds : Dataset) (hs : 0 < ds.samplingStride) :
    preprocessChecked ds.slide ds.imageSize (ds.samplingStride : Int)
      ds.roiMasking ds.mask = .ok (coordIndex ds) := by
  unfold preprocessChecked
  rw [if_neg (by exact_mod_cast hs.ne' : ¬ ((ds.samplingStride : Int) = 0))]
  have hset : ∀ n i, sliceSet n (ds.samplingStride : Int) i =
      (i % ds.samplingStride == 0) := by
    intro n i
    unfold sliceSet
    rw [if_pos (by exact_mod_cast hs : (0 : Int) < (ds.samplingStride : Int))]
    simp
  simp only [hset]
  rfl

/-- Claim C4 (evidence against the code): construction with a negative
sampling stride and a mask whose shape disagrees with the slide raster's
completes without any error — numpy accepts negative slice steps and the
code never compares the rasters' shapes — yielding a usable index of 9
coordinates; only a stride of exactly 0 aborts, and then with numpy's
slice-step error rather than a validation of the inputs. -/
theorem construction_accepts_invalid :
    preprocessChecked slide8 2 (-2) true maskOnes10 =
      .ok [(3, 3), (3, 5), (3, 7), (5, 3), (5, 5), (5, 7), (7, 3), (7, 5), (7, 7)] ∧
    preprocessChecked slide8 2 0 true maskOnes10 = .error .sliceStepZero := by
  exact ⟨by rfl, by rfl⟩

end DigiPathAI
